import Mathlib

/-!
Shallow embedding of the crew-gradio research assistant
(`src/app.py` and `src/researcher.py`).

Process-wide environment variables are modelled by `Env` (a field per
variable the program reads or writes; `none` = unset).  Python string
truthiness (`not s` for a possibly-missing string) is `truthyOpt`.
The external HTTP transport used by the EXA answer tool is a parameter
`PostRequest → HttpOutcome`; the CrewAI chain invoked inside
the try-block of `research_process` is a parameter
`Selection → String → Except String String` (an `Except.error` models an
exception whose `str` is the payload, caught by `except Exception`).
-/

namespace CrewGradio

/-- Process environment: the three variables the program touches.
`none` models an unset variable. -/
structure Env where
  openai : Option String := none
  groq : Option String := none
  exa : Option String := none
deriving DecidableEq

/-- Python truthiness of `os.environ.get(k)`: `None` and `""` are falsy. -/
def truthyOpt : Option String → Bool
  | none => false
  | some s => s != ""

/-- The `selection` dict built in `research_process` and consumed by
`create_researcher`. -/
structure Selection where
  provider : String
  model : String
deriving DecidableEq

/-- The `crewai.LLM` handle as configured by `create_researcher`:
only the keyword arguments the source actually passes. -/
structure LLMHandle where
  api_key : Option String := none
  base_url : Option String := none
  model : String
deriving DecidableEq

/-- The tools list of the agent (the source always passes
`[EXAAnswerTool()]`). -/
inductive ToolRef where
  | exaAnswerTool
deriving DecidableEq

/-- The `crewai.Agent` as configured by `create_researcher`. -/
structure Agent where
  role : String
  goal : String
  backstory : String
  tools : List ToolRef
  llm : LLMHandle
  verbose : Bool
  allow_delegation : Bool
deriving DecidableEq

/-- The `crewai.Task` as configured by `create_research_task`. -/
structure Task where
  description : String
  expected_output : String
  agent : Agent
  output_file : String
deriving DecidableEq

/-! EXA answer tool (`researcher.py`, class `EXAAnswerTool`) -/

/-- One citation entry of the JSON response of the answer API. -/
structure Citation where
  title : String
  url : String
deriving DecidableEq

/-- The parsed JSON body of the answer API response.
`answer = none` models a body without an `"answer"` key (subscripting it
raises `KeyError`); `citations = none` models an absent `"citations"` key
(`response_data.get("citations", [])` then yields `[]`). -/
structure AnswerBody where
  answer : Option String := none
  citations : Option (List Citation) := none
deriving DecidableEq

/-- The single POST request `_run` issues via `requests.post`. -/
structure PostRequest where
  url : String
  query : String
  text : Bool
  x_api_key : Option String
deriving DecidableEq

/-- What the HTTP transport returns: a response (status plus parsed JSON
body) or a transport-level failure (`requests` exception other than
`HTTPError`, e.g. a connection error). -/
inductive HttpOutcome where
  | response (status : Nat) (body : AnswerBody)
  | transportFailure (msg : String)
deriving DecidableEq

/-- The failures `_run` can propagate: the `HTTPError` re-raised after
`raise_for_status`, a re-raised transport exception, or the `KeyError`
from `response_data["answer"]`. -/
inductive ToolFailure where
  | httpError (status : Nat)
  | transportError (msg : String)
  | keyError (key : String)
deriving DecidableEq

def EXAAnswerTool.answer_url : String := "https://api.exa.ai/answer"

/-- The formatting tail of `EXAAnswerTool._run` (researcher.py lines
45-51): `output = f"Answer: {answer}\n\n"`, then, if the citations list
is non-empty, a `Citations:` header and one `- title (url)` bullet per
citation. -/
def formatAnswer (answer : String) (citations : List Citation) : String :=
  let output := "Answer: " ++ answer ++ "\n\n"
  if citations.isEmpty then output
  else citations.foldl (fun acc c => acc ++ "- " ++ c.title ++ " (" ++ c.url ++ ")\n")
    (output ++ "Citations:\n")

/-- Function `EXAAnswerTool._run` (researcher.py lines 20-51).  It builds one POST
request (URL `answer_url`, JSON `{query, text: true}`, `x-api-key` from the
environment) and hands it to the transport exactly once — the returned list
records every request issued.  A transport failure is re-raised; on a
response, `response.raise_for_status()` raises `HTTPError` exactly when the
status is in 400..599 (`requests` semantics) and the error is re-raised;
otherwise the body is parsed: `response_data["answer"]` (a `KeyError`
propagates if absent), `response_data.get("citations", [])`, then the
formatted string is returned. -/
def EXAAnswerTool._run (env : Env) (transport : PostRequest → HttpOutcome)
    (query : String) : Except ToolFailure String × List PostRequest :=
  let req : PostRequest :=
    { url := EXAAnswerTool.answer_url, query := query, text := true, x_api_key := env.exa }
  let result : Except ToolFailure String :=
    match transport req with
    | .transportFailure msg => .error (.transportError msg)
    | .response status body =>
      if 400 ≤ status && status < 600 then .error (.httpError status)
      else
        match body.answer with
        | none => .error (.keyError "answer")
        | some a => .ok (formatAnswer a (body.citations.getD []))
  (result, [req])

/-! Agent factory (`researcher.py`, `create_researcher`) -/

/-- The OpenAI friendly-name resolution inlined in `create_researcher`
(researcher.py lines 86-93): map `"GPT-3.5"` and `"GPT-4"` to concrete
names, then fall back to `"gpt-3.5-turbo"` only if the result is empty. -/
def resolve_openai_model (model : String) : String :=
  let model := if model == "GPT-3.5" then "gpt-3.5-turbo"
    else if model == "GPT-4" then "gpt-4"
    else model
  if model == "" then "gpt-3.5-turbo" else model

/-- Function `create_researcher` (researcher.py lines 56-108).  Dispatch on the
provider: GROQ and Ollama prefix the model verbatim; every other provider
takes the OpenAI branch, resolving the friendly name first.  The function
has no failure path: it reads the (possibly unset) credential from the
environment and always returns an `Agent`. -/
def create_researcher (env : Env) (selection : Selection) : Agent :=
  let provider := selection.provider
  let model := selection.model
  let llm : LLMHandle :=
    if provider == "GROQ" then
      { api_key := env.groq, model := "groq/" ++ model }
    else if provider == "Ollama" then
      { base_url := some "http://localhost:11434", model := "ollama/" ++ model }
    else
      { api_key := env.openai, model := "openai/" ++ resolve_openai_model model }
  { role := "Research Analyst",
    goal := "Conduct thorough research on given topics for the current year 2025",
    backstory := "Expert at analyzing and summarizing complex information",
    tools := [ToolRef.exaAnswerTool],
    llm := llm,
    verbose := true,
    allow_delegation := false }

/-! Task builder (`researcher.py`, `create_research_task`) -/

/-- The fixed `expected_output` template of `create_research_task`
(researcher.py lines 125-169), transcribed verbatim from the Python
triple-quoted literal, indentation and trailing spaces included. -/
def research_report_template : String :=
  "A comprehensive research report for the year 2025. \n        The report must be detailed yet concise, focusing on the most significant and impactful findings.\n        \n        Format the output in clean markdown (without code block markers or backticks) using the following structure:\n\n        # Executive Summary\n        - Brief overview of the research topic (2-3 sentences)\n        - Key highlights and main conclusions\n        - Significance of the findings\n\n        # Key Findings\n        - Major discoveries and developments\n        - Market trends and industry impacts\n        - Statistical data and metrics (when available)\n        - Technological advancements\n        - Challenges and opportunities\n\n        # Analysis\n        - Detailed examination of each key finding\n        - Comparative analysis with previous developments\n        - Industry expert opinions and insights\n        - Market implications and business impact\n\n        # Future Implications\n        - Short-term impacts (next 6-12 months)\n        - Long-term projections\n        - Potential disruptions and innovations\n        - Emerging trends to watch\n\n        # Recommendations\n        - Strategic suggestions for stakeholders\n        - Action items and next steps\n        - Risk mitigation strategies\n        - Investment or focus areas\n\n        # Citations\n        - List all sources with titles and URLs\n        - Include publication dates when available\n        - Prioritize recent and authoritative sources\n        - Format as: \"[Title] (URL) - [Publication Date if available]\"\n\n        Note: Ensure all information is current and relevant to 2025. Include specific dates, \n        numbers, and metrics whenever possible to support findings. All claims should be properly \n        cited using the sources discovered during research.\n        "

/-- Function `create_research_task` (researcher.py lines 113-172): a pure record
construction — the verbatim topic as description, the fixed template as
expected output, the given agent, and the recorded output file path. -/
def create_research_task (researcher : Agent) (task_description : String) : Task :=
  { description := task_description,
    expected_output := research_report_template,
    agent := researcher,
    output_file := "output/research_report.md" }

/-! Presentation layer (`app.py`, `research_process`) -/

/-- A Python exception that escapes `research_process` uncaught. -/
inductive PyExc where
  | unboundLocalError (name : String)
deriving DecidableEq

/-- How a call of `research_process` ends: a normal `return` of the
`(status message, research results)` tuple, or an uncaught exception. -/
inductive PyOutcome where
  | ret (status result : String)
  | exn (e : PyExc)
deriving DecidableEq

/-- Function `research_process` (app.py lines 17-82).  The chain invoked inside the
try-block (`create_researcher` / `create_research_task` / `run_research`)
is abstracted as `chain selection task_description`, returning the final
result string or, as `Except.error`, the `str` of any exception it raises
(caught by `except Exception as e`).  The second component of the result
records whether that chain was invoked at all.

Stepping through the source: the provider branch stores the provider key
into the environment and assigns the local `model` (left unassigned for an
unknown provider — reading it then raises `UnboundLocalError`, outside the
try-block); a non-empty EXA key argument is stored; then the four guard
checks return warning tuples; then `selection` is built (this is where the
local `model` is read) and the chain runs under the catch-all handler. -/
def research_process (env : Env)
    (provider openai_api_key groq_api_key exa_api_key : String)
    (openai_model groq_model ollama_model task_description : String)
    (chain : Selection → String → Except String String) : PyOutcome × Bool :=
  let st :=
    if provider == "OpenAI" then ({ env with openai := some openai_api_key }, some openai_model)
    else if provider == "GROQ" then ({ env with groq := some groq_api_key }, some groq_model)
    else if provider == "Ollama" then (env, some ollama_model)
    else (env, (none : Option String))
  let env1 := st.1
  let model := st.2
  let env2 := if exa_api_key != "" then { env1 with exa := some exa_api_key } else env1
  if provider == "OpenAI" && !(truthyOpt env2.openai) then
    (.ret "⚠️ OpenAI API key is required" "", false)
  else if provider == "GROQ" && !(truthyOpt env2.groq) then
    (.ret "⚠️ GROQ API key is required" "", false)
  else if provider != "Ollama" && !(truthyOpt env2.exa) then
    (.ret "⚠️ EXA API key is required for using search tools" "", false)
  else if provider == "Ollama" && (model.getD "") == "" then
    (.ret "⚠️ No Ollama models found. Please make sure Ollama is running" "", false)
  else
    match model with
    | none => (.exn (.unboundLocalError "model"), false)
    | some m =>
      match chain { provider := provider, model := m } task_description with
      | .ok result => (.ret "✅ Research completed!" result, true)
      | .error e => (.ret ("❌ Error occurred: " ++ e) "", true)

/-! Substring infrastructure (for stating containment properties) -/

/-- Test whether the first character list is a prefix of the second. -/
def isPrefixOfL : List Char → List Char → Bool
  | [], _ => true
  | _ :: _, [] => false
  | a :: as, b :: bs => a == b && isPrefixOfL as bs

/-- Test whether the first character list occurs contiguously in the second. -/
def isInfixL (a : List Char) : List Char → Bool
  | [] => isPrefixOfL a []
  | b :: bs => isPrefixOfL a (b :: bs) || isInfixL a bs

/-- Executable substring test on strings. -/
def containsB (needle hay : String) : Bool :=
  isInfixL needle.data hay.data

/-- Propositional substring containment on strings. -/
def containsStr (needle hay : String) : Prop :=
  ∃ p q, hay = p ++ needle ++ q


/-! Claim theorems -/

/-- C1: for a Selection with provider "OpenAI", the friendly name "GPT-4"
resolves to the model identifier "gpt-4", "GPT-3.5" to "gpt-3.5-turbo",
and the empty string to "gpt-3.5-turbo"; the LLM handle built by
`create_researcher` carries exactly that resolved identifier (under the
provider route prefix "openai/"). -/
theorem c1_openai_model_resolution :
    resolve_openai_model "GPT-4" = "gpt-4" ∧
    resolve_openai_model "GPT-3.5" = "gpt-3.5-turbo" ∧
    resolve_openai_model "" = "gpt-3.5-turbo" ∧
    ∀ (env : Env) (m : String),
      (create_researcher env { provider := "OpenAI", model := m }).llm.model
        = "openai/" ++ resolve_openai_model m :=
  ⟨rfl, rfl, rfl, fun _ _ => rfl⟩

/-- C2 counterexample: with the OpenAI credential absent from the
environment, `create_researcher` does not fail at all — it returns a
fully-formed Agent whose LLM handle carries no API key.  There is no
ConfigurationError (or any failure path) in the factory. -/
theorem c2_counterexample_no_failure :
    create_researcher {} { provider := "OpenAI", model := "GPT-4" } =
      { role := "Research Analyst",
        goal := "Conduct thorough research on given topics for the current year 2025",
        backstory := "Expert at analyzing and summarizing complex information",
        tools := [ToolRef.exaAnswerTool],
        llm := { api_key := none, base_url := none, model := "openai/gpt-4" },
        verbose := true,
        allow_delegation := false } :=
  rfl

/-- C2 amended: `create_researcher` performs no credential validation and
always returns an Agent, forwarding the (possibly absent) environment
credential into the LLM handle; the required-credential check lives one
layer up, in `research_process`, which returns a warning status tuple —
without invoking the factory chain — when the key for the credentialed
provider is empty. -/
theorem c2_amended_credential_check :
    (∀ (env : Env) (m : String),
        (create_researcher env { provider := "OpenAI", model := m }).llm.api_key = env.openai) ∧
    (∀ (env : Env) (m : String),
        (create_researcher env { provider := "GROQ", model := m }).llm.api_key = env.groq) ∧
    (∀ (env : Env) (gkey ekey om gm olm td : String)
        (chain : Selection → String → Except String String),
        research_process env "OpenAI" "" gkey ekey om gm olm td chain
          = (PyOutcome.ret "⚠️ OpenAI API key is required" "", false)) ∧
    (∀ (env : Env) (okey ekey om gm olm td : String)
        (chain : Selection → String → Except String String),
        research_process env "GROQ" okey "" ekey om gm olm td chain
          = (PyOutcome.ret "⚠️ GROQ API key is required" "", false)) := by
  refine ⟨fun _ _ => rfl, fun _ _ => rfl, ?_, ?_⟩
  · intro env gkey ekey om gm olm td chain
    by_cases hek : ekey = ""
    · subst hek; rfl
    · have hb : (ekey != "") = true := by simpa using hek
      simp only [research_process, hb]; rfl
  · intro env okey ekey om gm olm td chain
    by_cases hek : ekey = ""
    · subst hek; rfl
    · have hb : (ekey != "") = true := by simpa using hek
      simp only [research_process, hb]; rfl

/-- C8 counterexample: the non-empty OpenAI model name "o1" is outside the
friendly-name mapping, and `create_researcher` passes it through verbatim
("openai/o1") instead of falling back to "gpt-3.5-turbo". -/
theorem c8_counterexample_passthrough :
    (create_researcher {} { provider := "OpenAI", model := "o1" }).llm.model = "openai/o1" ∧
      resolve_openai_model "o1" = "o1" ∧ "o1" ≠ "gpt-3.5-turbo" :=
  ⟨rfl, rfl, by decide⟩

/-- C8 amended: a non-empty OpenAI model name outside the friendly-name
mapping is passed through unchanged (under the "openai/" route prefix);
only the empty model name falls back to "gpt-3.5-turbo". -/
theorem c8_amended_passthrough (m : String)
    (h1 : m ≠ "") (h2 : m ≠ "GPT-3.5") (h3 : m ≠ "GPT-4") :
    resolve_openai_model m = m ∧
      ∀ env : Env,
        (create_researcher env { provider := "OpenAI", model := m }).llm.model
          = "openai/" ++ m := by
  have hr : resolve_openai_model m = m := by
    simp [resolve_openai_model, h1, h2, h3]
  refine ⟨hr, fun env => ?_⟩
  show "openai/" ++ resolve_openai_model m = "openai/" ++ m
  rw [hr]

/-- C8 amended, witness at the concrete unmapped name "o1-mini". -/
theorem c8_amended_passthrough_witness :
    resolve_openai_model "o1-mini" = "o1-mini" ∧
      ∀ env : Env,
        (create_researcher env { provider := "OpenAI", model := "o1-mini" }).llm.model
          = "openai/" ++ "o1-mini" :=
  c8_amended_passthrough "o1-mini" (by decide) (by decide) (by decide)

/-- C10: an HTTP 200 response whose citations list is empty, or whose body
has no citations key at all, makes `_run` return exactly
"Answer: " ++ answer ++ "\n\n" — no Citations header, no bullets. -/
theorem c10_no_citations (env : Env) (a q : String) :
    (EXAAnswerTool._run env
        (fun _ => .response 200 { answer := some a, citations := some [] }) q).1
      = Except.ok ("Answer: " ++ a ++ "\n\n") ∧
    (EXAAnswerTool._run env
        (fun _ => .response 200 { answer := some a }) q).1
      = Except.ok ("Answer: " ++ a ++ "\n\n") :=
  ⟨rfl, rfl⟩

set_option maxRecDepth 40000 in
/-- C7: `create_research_task` builds, purely, a Task whose description is
the verbatim topic, whose expected output is the one fixed constant
template, whose agent is the given agent, and whose recorded output file
path is "output/research_report.md"; the template contains the six
mandatory markdown section headers. -/
theorem c7_task_builder :
    (∀ (researcher : Agent) (topic : String),
        create_research_task researcher topic =
          { description := topic,
            expected_output := research_report_template,
            agent := researcher,
            output_file := "output/research_report.md" }) ∧
    containsB "# Executive Summary" research_report_template = true ∧
    containsB "# Key Findings" research_report_template = true ∧
    containsB "# Analysis" research_report_template = true ∧
    containsB "# Future Implications" research_report_template = true ∧
    containsB "# Recommendations" research_report_template = true ∧
    containsB "# Citations" research_report_template = true :=
  ⟨fun _ _ => rfl, rfl, rfl, rfl, rfl, rfl, rfl⟩

/-- C3: calling `research_process` with provider "GROQ" and an empty GROQ
key returns the warning tuple ("⚠️ GROQ API key is required", "") — for
every environment, every other argument, and every possible behaviour of
the chain, whose invocation flag is false: `create_researcher`,
`create_research_task` and `run_research` are never reached, so no network
call is attempted. -/
theorem c3_groq_empty_key_guard :
    ∀ (env : Env) (okey ekey om gm olm td : String)
      (chain : Selection → String → Except String String),
      research_process env "GROQ" okey "" ekey om gm olm td chain
        = (PyOutcome.ret "⚠️ GROQ API key is required" "", false) := by
  intro env okey ekey om gm olm td chain
  by_cases hek : ekey = ""
  · subst hek; rfl
  · have hb : (ekey != "") = true := by simpa using hek
    simp only [research_process, hb]; rfl

/-- C4: whenever the chain invoked inside the try-block of
`research_process` raises an exception (any payload e), and the chain is
actually reached, `research_process` returns the caught-error tuple
("❌ Error occurred: " ++ e, "") — a normal return, never a propagated
exception from the chain. -/
theorem c4_chain_exception_caught (env : Env)
    (provider okey gkey ekey om gm olm td e : String)
    (h : (research_process env provider okey gkey ekey om gm olm td
            (fun _ _ => Except.error e)).2 = true) :
    (research_process env provider okey gkey ekey om gm olm td
        (fun _ _ => Except.error e)).1
      = PyOutcome.ret ("❌ Error occurred: " ++ e) "" := by
  revert h
  simp only [research_process]
  split_ifs <;> simp_all

/-- C4 witness: a concrete Ollama run whose chain raises "boom" ends in
the caught-error tuple. -/
theorem c4_chain_exception_caught_witness :
    (research_process {} "Ollama" "" "" "" "" "" "llama2" "t"
        (fun _ _ => Except.error "boom")).1
      = PyOutcome.ret ("❌ Error occurred: " ++ "boom") "" :=
  c4_chain_exception_caught {} "Ollama" "" "" "" "" "" "llama2" "t" "boom" rfl

/-- C5: for an HTTP 200 response whose body has answer a and one citation
(title t, url u), `_run` returns a string containing both the substring
"Answer: " ++ a and the substring "- " ++ t ++ " (" ++ u ++ ")". -/
theorem c5_answer_with_citation (env : Env) (a t u q : String) :
    ∃ out,
      (EXAAnswerTool._run env
          (fun _ => .response 200 { answer := some a, citations := some [{ title := t, url := u }] })
          q).1 = Except.ok out ∧
        containsStr ("Answer: " ++ a) out ∧
        containsStr ("- " ++ t ++ " (" ++ u ++ ")") out := by
  refine ⟨formatAnswer a [{ title := t, url := u }], rfl, ?_, ?_⟩
  · refine ⟨"", "\n\nCitations:\n" ++ ("- " ++ (t ++ (" (" ++ (u ++ ")\n")))), ?_⟩
    simp [formatAnswer, String.append_assoc, String.empty_append]
  · refine ⟨"Answer: " ++ a ++ "\n\n" ++ "Citations:\n", "\n", ?_⟩
    simp [formatAnswer, String.append_assoc,
      show (")" : String) ++ "\n" = ")\n" from rfl]

/-- C6 counterexample: a 300 response (non-2xx, but outside the 400..599
range that `raise_for_status` checks, and not auto-followed by the
`requests` redirect handling) with a parseable body makes `_run` return a
string instead of raising. -/
theorem c6_counterexample_status_300 :
    (EXAAnswerTool._run {} (fun _ => HttpOutcome.response 300 { answer := some "X" }) "q").1
      = Except.ok "Answer: X\n\n" :=
  rfl

/-- C6 amended: for every HTTP response with status in 400..599 and for
every transport failure, `_run` propagates a failure to the caller without
returning a string, and it issues exactly one POST per invocation (no
retry). -/
theorem c6_amended_http_failure (env : Env) (q : String) (oc : HttpOutcome)
    (h : (∃ st body, oc = HttpOutcome.response st body ∧ 400 ≤ st ∧ st < 600) ∨
         (∃ msg, oc = HttpOutcome.transportFailure msg)) :
    (∃ f, (EXAAnswerTool._run env (fun _ => oc) q).1 = Except.error f) ∧
      ((EXAAnswerTool._run env (fun _ => oc) q).2).length = 1 := by
  refine ⟨?_, rfl⟩
  rcases h with ⟨st, body, rfl, h4, h6⟩ | ⟨msg, rfl⟩
  · have hc : (400 ≤ st && st < 600) = true := by simp [h4, h6]
    exact ⟨ToolFailure.httpError st, by simp [EXAAnswerTool._run, hc]⟩
  · exact ⟨ToolFailure.transportError msg, rfl⟩

/-- C6 amended, witness at a concrete 404 response. -/
theorem c6_amended_http_failure_witness :
    (∃ f, (EXAAnswerTool._run {} (fun _ => HttpOutcome.response 404 {}) "q").1
        = Except.error f) ∧
      ((EXAAnswerTool._run {} (fun _ => HttpOutcome.response 404 {}) "q").2).length = 1 :=
  c6_amended_http_failure {} "q" (HttpOutcome.response 404 {})
    (Or.inl ⟨404, {}, rfl, by decide, by decide⟩)

/-- C9 counterexample: with an unknown provider "Foo" but no EXA key, the
EXA guard fires first and `research_process` returns a warning tuple — it
does not raise UnboundLocalError on every input with an unknown
provider. -/
theorem c9_counterexample_early_return :
    research_process {} "Foo" "" "" "" "" "" "" "" (fun _ _ => Except.error "e")
      = (PyOutcome.ret "⚠️ EXA API key is required for using search tools" "", false) :=
  rfl

/-- C9 amended: for every provider other than "OpenAI", "GROQ" and
"Ollama", provided the EXA credential check passes (a non-empty EXA key
argument, or one already present in the environment), `research_process`
raises UnboundLocalError at the Selection construction — the local
`model` was never assigned — outside the try-block, for every chain, so
the catch-all boundary does not cover this input. -/
theorem c9_unbound_local_model (env : Env)
    (provider okey gkey ekey om gm olm td : String)
    (chain : Selection → String → Except String String)
    (h1 : provider ≠ "OpenAI") (h2 : provider ≠ "GROQ") (h3 : provider ≠ "Ollama")
    (hexa : ekey ≠ "" ∨ truthyOpt env.exa = true) :
    research_process env provider okey gkey ekey om gm olm td chain
      = (PyOutcome.exn (PyExc.unboundLocalError "model"), false) := by
  have b1 : (provider == "OpenAI") = false := by simpa using h1
  have b2 : (provider == "GROQ") = false := by simpa using h2
  have b3 : (provider == "Ollama") = false := by simpa using h3
  by_cases hek : ekey = ""
  · subst hek
    rcases hexa with hexa | hexa
    · exact absurd rfl hexa
    · simp [research_process, b1, b2, b3, hexa]
  · have hb : (ekey != "") = true := by simpa using hek
    simp [research_process, b1, b2, b3, hb, truthyOpt]

/-- C9 amended, witness at provider "Foo" with EXA key "x". -/
theorem c9_unbound_local_model_witness :
    research_process {} "Foo" "" "" "x" "" "" "" "" (fun _ _ => Except.error "e")
      = (PyOutcome.exn (PyExc.unboundLocalError "model"), false) :=
  c9_unbound_local_model {} "Foo" "" "" "x" "" "" "" "" (fun _ _ => Except.error "e")
    (by decide) (by decide) (by decide) (Or.inl (by decide))

end CrewGradio
